import Mathlib

/-!
Verification of the developer-environment bootstrap script
`src/InfluxDB/predictive_maintenance_setup.py`.

The script is shallowly embedded as pure Lean functions producing a trace
of external-effect events, parameterised by an environment that decides
the outcome of each external call (whether spawning an executable raises,
the exit code each command returns, whether a directory change raises, and
after how many run-loop iterations the keyboard interrupt arrives).
-/

namespace PredictiveMaintenance

/-- JSON values as produced by Python `json.load`: objects are ordered
association lists of string keys, mirroring Python dict insertion order. -/
inductive Json where
  | null : Json
  | bool : Bool → Json
  | num : Int → Json
  | str : String → Json
  | arr : List Json → Json
  | obj : List (String × Json) → Json

/-- Python dict assignment `d[k] = v`: replace the value at the (unique)
existing occurrence of `k`, keeping its position, else append at the end. -/
def setKey : List (String × Json) → String → Json → List (String × Json)
  | [], k, v => [(k, v)]
  | (k', v') :: rest, k, v =>
      if k' = k then (k, v) :: rest
      else (k', v') :: setKey rest k v

/-- Python dict lookup `d[k]` (first matching key). -/
def lookupKey : List (String × Json) → String → Option Json
  | [], _ => none
  | (k', v) :: rest, k => if k' = k then some v else lookupKey rest k

/-- State of the file `PredictiveMaintenance.API/appsettings.json`:
absent, present but not valid JSON, or present with a parsed JSON value. -/
inductive ConfigFile where
  | missing : ConfigFile
  | invalid : ConfigFile
  | valid : Json → ConfigFile

/-- One external-effect call issued by the script. -/
inductive Event where
  | run : List String → Int → Event
  | popen : List String → Event
  | readConfig : Event
  | writeConfig : List (String × Json) → Event
  | chdir : String → Event
  | sleep : Nat → Event
  | terminate : List String → Event

/-- Uncaught Python exceptions that abort the script. -/
inductive Err where
  | fileNotFound : Err
  | parseError : Err
  | typeError : Err
  | spawnError : List String → Err
  | chdirError : String → Err

/-- Outcomes of the external calls: which executables fail to spawn
(raising FileNotFoundError), the exit code of each command (never
inspected by the script), which directory changes raise, and the number
of completed run-loop iterations before the keyboard interrupt. -/
structure Env where
  spawnFails : List String → Bool
  exitCode : List String → Int
  chdirFails : String → Bool
  interruptAfter : Nat

/-- Mutable ambient state the script touches: the config file and the
process-wide working directory, kept as the stack of directories entered
(`os.chdir ".."` pops). -/
structure St where
  config : ConfigFile
  cwd : List String

/-- Result of running a script fragment: the events issued, the final
ambient state, and the uncaught exception if one was raised. -/
structure Outcome where
  trace : List Event
  state : St
  err : Option Err

def dockerRunCmd : List String :=
  ["docker", "run", "-d", "--name", "influxdb3",
   "-p", "8086:8086",
   "-e", "INFLUXDB_INIT_ADMIN_USER=admin",
   "-e", "INFLUXDB_INIT_ADMIN_PASSWORD=password123",
   "-e", "INFLUXDB_INIT_DATABASE=equipment_monitoring",
   "influxdata/influxdb:3.0"]

def npmInstallCmd : List String := ["npm", "install"]

def dotnetBuildCmd : List String := ["dotnet", "build"]

def apiRunCmd : List String := ["dotnet", "run", "--project", "PredictiveMaintenance.API"]

def npmStartCmd : List String := ["npm", "start"]

def clientDir : String := "predictivemaintenance.client"

/-- The object assigned to `settings` at key `InfluxDB`. -/
def influxSettings : List (String × Json) :=
  [("Url", Json.str "http://localhost:8086"),
   ("Username", Json.str "admin"),
   ("Password", Json.str "password123"),
   ("Database", Json.str "equipment_monitoring")]

/-- The read-modify-write of `appsettings.json` inside `setup_influxdb`:
`open 'r'` raises FileNotFoundError on a missing file, `json.load` raises
on invalid JSON, the item assignment raises TypeError when the document is
not an object, and only then is the file opened for writing and dumped. -/
def updateAppSettings (c : ConfigFile) : List Event × ConfigFile × Option Err :=
  match c with
  | ConfigFile.missing => ([Event.readConfig], c, some Err.fileNotFound)
  | ConfigFile.invalid => ([Event.readConfig], c, some Err.parseError)
  | ConfigFile.valid (Json.obj fields) =>
      let fields' := setKey fields "InfluxDB" (Json.obj influxSettings)
      ([Event.readConfig, Event.writeConfig fields'],
       ConfigFile.valid (Json.obj fields'), none)
  | ConfigFile.valid d => ([Event.readConfig], ConfigFile.valid d, some Err.typeError)

/-- `setup_influxdb`: `subprocess.run` the docker command (its exit code is
not checked), then patch the config file. -/
def setup_influxdb (env : Env) (st : St) : Outcome :=
  if env.spawnFails dockerRunCmd then
    { trace := [], state := st, err := some (Err.spawnError dockerRunCmd) }
  else
    let (tr, c', e) := updateAppSettings st.config
    { trace := Event.run dockerRunCmd (env.exitCode dockerRunCmd) :: tr,
      state := { st with config := c' }, err := e }

/-- `ensure_npm_packages`: `os.chdir` into the client folder, run
`npm install` (exit code unchecked), `os.chdir ".."` back. If the install
invocation itself raises, the restoring chdir is skipped. -/
def ensure_npm_packages (env : Env) (st : St) : Outcome :=
  if env.chdirFails clientDir then
    { trace := [], state := st, err := some (Err.chdirError clientDir) }
  else
    let st1 : St := { st with cwd := st.cwd ++ [clientDir] }
    if env.spawnFails npmInstallCmd then
      { trace := [Event.chdir clientDir], state := st1,
        err := some (Err.spawnError npmInstallCmd) }
    else
      { trace := [Event.chdir clientDir,
                  Event.run npmInstallCmd (env.exitCode npmInstallCmd),
                  Event.chdir ".."],
        state := { st1 with cwd := st1.cwd.dropLast }, err := none }

/-- `build_and_run`: `dotnet build` (exit code unchecked), `Popen` the API,
`time.sleep 5`, `os.chdir` into the client folder (never restored),
`Popen npm start`, then the `while True: time.sleep 1` loop until the
keyboard interrupt, which is caught and answered by terminating the API
process and then the client process. -/
def build_and_run (env : Env) (st : St) : Outcome :=
  if env.spawnFails dotnetBuildCmd then
    { trace := [], state := st, err := some (Err.spawnError dotnetBuildCmd) }
  else
    let e1 := Event.run dotnetBuildCmd (env.exitCode dotnetBuildCmd)
    if env.spawnFails apiRunCmd then
      { trace := [e1], state := st, err := some (Err.spawnError apiRunCmd) }
    else if env.chdirFails clientDir then
      { trace := [e1, Event.popen apiRunCmd, Event.sleep 5], state := st,
        err := some (Err.chdirError clientDir) }
    else
      let st1 : St := { st with cwd := st.cwd ++ [clientDir] }
      if env.spawnFails npmStartCmd then
        { trace := [e1, Event.popen apiRunCmd, Event.sleep 5, Event.chdir clientDir],
          state := st1, err := some (Err.spawnError npmStartCmd) }
      else
        { trace := [e1, Event.popen apiRunCmd, Event.sleep 5, Event.chdir clientDir,
                    Event.popen npmStartCmd]
                   ++ List.replicate env.interruptAfter (Event.sleep 1)
                   ++ [Event.terminate apiRunCmd, Event.terminate npmStartCmd],
          state := st1, err := none }

/-- The `__main__` block: the three stages in order; an uncaught exception
in a stage aborts the script and skips the later stages. -/
def mainScript (env : Env) (st : St) : Outcome :=
  let o1 := setup_influxdb env st
  match o1.err with
  | some e => { trace := o1.trace, state := o1.state, err := some e }
  | none =>
    let o2 := ensure_npm_packages env o1.state
    match o2.err with
    | some e => { trace := o1.trace ++ o2.trace, state := o2.state, err := some e }
    | none =>
      let o3 := build_and_run env o2.state
      { trace := o1.trace ++ o2.trace ++ o3.trace, state := o3.state, err := o3.err }

/-- Event classifiers used to count and order calls in a trace. -/
def Event.isRunOf (cmd : List String) : Event → Bool
  | Event.run c _ => c = cmd
  | _ => false

def Event.isPopen : Event → Bool
  | Event.popen _ => true
  | _ => false

def Event.isWrite : Event → Bool
  | Event.writeConfig _ => true
  | _ => false

def Event.isSleepOf (n : Nat) : Event → Bool
  | Event.sleep m => m = n
  | _ => false

def Event.isTerminate : Event → Bool
  | Event.terminate _ => true
  | _ => false

/-! Lemmas about the Python dict update `setKey`. -/

theorem lookupKey_setKey_self (l : List (String × Json)) (k : String) (v : Json) :
    lookupKey (setKey l k v) k = some v := by
  induction l with
  | nil => simp [setKey, lookupKey]
  | cons hd tl ih =>
      obtain ⟨k', v'⟩ := hd
      by_cases h : k' = k
      · simp [setKey, lookupKey, h]
      · simp [setKey, lookupKey, h, ih]

theorem lookupKey_setKey_ne (l : List (String × Json)) (k k₀ : String) (v : Json)
    (h : k₀ ≠ k) : lookupKey (setKey l k v) k₀ = lookupKey l k₀ := by
  induction l with
  | nil => simp [setKey, lookupKey, Ne.symm h]
  | cons hd tl ih =>
      obtain ⟨k', v'⟩ := hd
      by_cases hk : k' = k
      · subst hk
        simp [setKey, lookupKey, Ne.symm h]
      · simp only [setKey, hk, if_false, lookupKey]
        by_cases hk0 : k' = k₀
        · simp [hk0]
        · simp [hk0, ih]

theorem setKey_idem (l : List (String × Json)) (k : String) (v : Json) :
    setKey (setKey l k v) k v = setKey l k v := by
  induction l with
  | nil => simp [setKey]
  | cons hd tl ih =>
      obtain ⟨k', v'⟩ := hd
      by_cases h : k' = k
      · simp [setKey, h]
      · simp [setKey, h, ih]

/-- An environment in which every external call succeeds with exit code 0
and the interrupt arrives on the first run-loop iteration. -/
def happyEnv : Env :=
  { spawnFails := fun _ => false, exitCode := fun _ => 0,
    chdirFails := fun _ => false, interruptAfter := 0 }

/-- C1: for every starting JSON configuration document (a top-level object,
as a configuration document is), the read-modify-write of `setup_influxdb`
succeeds and writes back a document that keeps every key of the input
unchanged except that the top-level key `InfluxDB` now maps to exactly the
four-field object of literal connection values; the result is a `Json`
value, hence valid JSON. -/
theorem c1_patch_preserves_keys (D : List (String × Json)) :
    updateAppSettings (ConfigFile.valid (Json.obj D)) =
      ([Event.readConfig,
        Event.writeConfig (setKey D "InfluxDB" (Json.obj influxSettings))],
       ConfigFile.valid (Json.obj (setKey D "InfluxDB" (Json.obj influxSettings))),
       none)
    ∧ lookupKey (setKey D "InfluxDB" (Json.obj influxSettings)) "InfluxDB"
        = some (Json.obj influxSettings)
    ∧ ∀ k, k ≠ "InfluxDB" →
        lookupKey (setKey D "InfluxDB" (Json.obj influxSettings)) k = lookupKey D k :=
  ⟨rfl, lookupKey_setKey_self D "InfluxDB" (Json.obj influxSettings),
   fun k hk => lookupKey_setKey_ne D "InfluxDB" k (Json.obj influxSettings) hk⟩

theorem c1_witness :
    lookupKey (setKey [("Foo", Json.num 1)] "InfluxDB" (Json.obj influxSettings)) "Foo"
      = lookupKey [("Foo", Json.num 1)] "Foo" :=
  (c1_patch_preserves_keys [("Foo", Json.num 1)]).2.2 "Foo" (by decide)

/-- C2: the configuration patch is idempotent: patching the config file a
second time yields exactly the same file state as patching it once. -/
theorem c2_patch_idempotent (D : List (String × Json)) :
    (updateAppSettings (updateAppSettings (ConfigFile.valid (Json.obj D))).2.1).2.1
      = (updateAppSettings (ConfigFile.valid (Json.obj D))).2.1 := by
  simp [updateAppSettings, setKey_idem]

/-- C3: when the config file is missing or holds invalid JSON, the bootstrap
stage raises an uncaught error, leaves the file state unchanged, and issues
no write. -/
theorem c3_read_failure_no_write (env : Env) (st : St)
    (h : st.config = ConfigFile.missing ∨ st.config = ConfigFile.invalid) :
    (setup_influxdb env st).err.isSome = true
    ∧ (setup_influxdb env st).state.config = st.config
    ∧ (setup_influxdb env st).trace.countP Event.isWrite = 0 := by
  cases hs : env.spawnFails dockerRunCmd
  · rcases h with h | h <;>
      simp [setup_influxdb, hs, h, updateAppSettings, Event.isWrite]
  · simp [setup_influxdb, hs]

theorem c3_witness :
    (setup_influxdb happyEnv { config := ConfigFile.missing, cwd := [] }).err.isSome = true
    ∧ (setup_influxdb happyEnv
        { config := ConfigFile.missing, cwd := [] }).state.config = ConfigFile.missing
    ∧ (setup_influxdb happyEnv
        { config := ConfigFile.missing, cwd := [] }).trace.countP Event.isWrite = 0 :=
  c3_read_failure_no_write happyEnv { config := ConfigFile.missing, cwd := [] } (Or.inl rfl)

/-- Shape of the `build_and_run` trace when every spawn and chdir succeeds:
exit codes play no role in control flow. -/
theorem build_and_run_happy (env : Env) (st : St)
    (h1 : env.spawnFails dotnetBuildCmd = false)
    (h2 : env.spawnFails apiRunCmd = false)
    (h3 : env.chdirFails clientDir = false)
    (h4 : env.spawnFails npmStartCmd = false) :
    build_and_run env st =
      { trace := [Event.run dotnetBuildCmd (env.exitCode dotnetBuildCmd),
                  Event.popen apiRunCmd, Event.sleep 5, Event.chdir clientDir,
                  Event.popen npmStartCmd]
                 ++ List.replicate env.interruptAfter (Event.sleep 1)
                 ++ [Event.terminate apiRunCmd, Event.terminate npmStartCmd],
        state := { st with cwd := st.cwd ++ [clientDir] }, err := none } := by
  simp [build_and_run, h1, h2, h3, h4]

/-- Shape of the full-script trace when every external call succeeds and the
config file holds a JSON object. -/
theorem mainScript_happy (env : Env) (D : List (String × Json)) (cwd0 : List String)
    (hd : env.spawnFails dockerRunCmd = false)
    (hn : env.spawnFails npmInstallCmd = false)
    (hc : env.chdirFails clientDir = false)
    (h1 : env.spawnFails dotnetBuildCmd = false)
    (h2 : env.spawnFails apiRunCmd = false)
    (h4 : env.spawnFails npmStartCmd = false) :
    mainScript env { config := ConfigFile.valid (Json.obj D), cwd := cwd0 } =
      { trace := [Event.run dockerRunCmd (env.exitCode dockerRunCmd),
                  Event.readConfig,
                  Event.writeConfig (setKey D "InfluxDB" (Json.obj influxSettings)),
                  Event.chdir clientDir,
                  Event.run npmInstallCmd (env.exitCode npmInstallCmd),
                  Event.chdir "..",
                  Event.run dotnetBuildCmd (env.exitCode dotnetBuildCmd),
                  Event.popen apiRunCmd, Event.sleep 5, Event.chdir clientDir,
                  Event.popen npmStartCmd]
                 ++ List.replicate env.interruptAfter (Event.sleep 1)
                 ++ [Event.terminate apiRunCmd, Event.terminate npmStartCmd],
        state := { config := ConfigFile.valid
                     (Json.obj (setKey D "InfluxDB" (Json.obj influxSettings))),
                   cwd := cwd0 ++ [clientDir] },
        err := none } := by
  simp [mainScript, setup_influxdb, updateAppSettings, ensure_npm_packages,
        build_and_run, hd, hn, hc, h1, h2, h4]

/-- C4: in any run of the full sequence in which the mocked external calls
succeed, exactly one container-create call, one install call, one build call
and two process-spawn calls are issued, and filtering the trace down to the
build call, the spawns and the fixed 5-unit delay leaves exactly the ordered
sequence build, backend spawn, 5-unit delay, front-end spawn. -/
theorem c4_call_counts_and_order (env : Env) (D : List (String × Json))
    (cwd0 : List String)
    (hd : env.spawnFails dockerRunCmd = false)
    (hn : env.spawnFails npmInstallCmd = false)
    (hc : env.chdirFails clientDir = false)
    (h1 : env.spawnFails dotnetBuildCmd = false)
    (h2 : env.spawnFails apiRunCmd = false)
    (h4 : env.spawnFails npmStartCmd = false) :
    let tr := (mainScript env { config := ConfigFile.valid (Json.obj D), cwd := cwd0 }).trace
    tr.countP (Event.isRunOf dockerRunCmd) = 1
    ∧ tr.countP (Event.isRunOf npmInstallCmd) = 1
    ∧ tr.countP (Event.isRunOf dotnetBuildCmd) = 1
    ∧ tr.countP Event.isPopen = 2
    ∧ tr.filter (fun e => Event.isRunOf dotnetBuildCmd e || Event.isPopen e
                          || Event.isSleepOf 5 e)
        = [Event.run dotnetBuildCmd (env.exitCode dotnetBuildCmd),
           Event.popen apiRunCmd, Event.sleep 5, Event.popen npmStartCmd] := by
  rw [mainScript_happy env D cwd0 hd hn hc h1 h2 h4]
  simp [Event.isRunOf, Event.isPopen, Event.isSleepOf, dockerRunCmd, npmInstallCmd,
        dotnetBuildCmd, apiRunCmd, npmStartCmd, List.countP_replicate,
        List.filter_replicate]

theorem c4_witness :
    let tr := (mainScript happyEnv
        { config := ConfigFile.valid (Json.obj [("Foo", Json.num 1)]), cwd := [] }).trace
    tr.countP (Event.isRunOf dockerRunCmd) = 1
    ∧ tr.countP (Event.isRunOf npmInstallCmd) = 1
    ∧ tr.countP (Event.isRunOf dotnetBuildCmd) = 1
    ∧ tr.countP Event.isPopen = 2
    ∧ tr.filter (fun e => Event.isRunOf dotnetBuildCmd e || Event.isPopen e
                          || Event.isSleepOf 5 e)
        = [Event.run dotnetBuildCmd (happyEnv.exitCode dotnetBuildCmd),
           Event.popen apiRunCmd, Event.sleep 5, Event.popen npmStartCmd] :=
  c4_call_counts_and_order happyEnv [("Foo", Json.num 1)] [] rfl rfl rfl rfl rfl rfl

/-- C5: when the interrupt arrives after any number of run-loop iterations,
the launcher issues exactly two termination requests, backend first and
front-end second, as the final two events of its trace (so the run loop is
not re-entered), and returns normally, reaching the terminal state. -/
theorem c5_interrupt_terminates (env : Env) (st : St)
    (h1 : env.spawnFails dotnetBuildCmd = false)
    (h2 : env.spawnFails apiRunCmd = false)
    (h3 : env.chdirFails clientDir = false)
    (h4 : env.spawnFails npmStartCmd = false) :
    let o := build_and_run env st
    o.trace.countP Event.isTerminate = 2
    ∧ o.trace.filter Event.isTerminate
        = [Event.terminate apiRunCmd, Event.terminate npmStartCmd]
    ∧ (∃ pre, o.trace
        = pre ++ [Event.terminate apiRunCmd, Event.terminate npmStartCmd])
    ∧ o.err = none := by
  rw [build_and_run_happy env st h1 h2 h3 h4]
  refine ⟨?_, ?_, ⟨[Event.run dotnetBuildCmd (env.exitCode dotnetBuildCmd),
    Event.popen apiRunCmd, Event.sleep 5, Event.chdir clientDir,
    Event.popen npmStartCmd] ++ List.replicate env.interruptAfter (Event.sleep 1), by
      simp⟩, rfl⟩ <;>
    simp [Event.isTerminate, List.countP_replicate, List.filter_replicate]

theorem c5_witness :
    let o := build_and_run happyEnv { config := ConfigFile.missing, cwd := [] }
    o.trace.countP Event.isTerminate = 2
    ∧ o.trace.filter Event.isTerminate
        = [Event.terminate apiRunCmd, Event.terminate npmStartCmd]
    ∧ (∃ pre, o.trace
        = pre ++ [Event.terminate apiRunCmd, Event.terminate npmStartCmd])
    ∧ o.err = none :=
  c5_interrupt_terminates happyEnv { config := ConfigFile.missing, cwd := [] }
    rfl rfl rfl rfl

/-- Environment in which the build command exits with status 1 and every
other call succeeds. -/
def buildFailEnv : Env :=
  { spawnFails := fun _ => false,
    exitCode := fun c => if c = dotnetBuildCmd then 1 else 0,
    chdirFails := fun _ => false, interruptAfter := 0 }

/-- C6 counterexample: with a build exit status of 1 and every spawn
succeeding, the launcher returns without error and still issues both
process spawns, contradicting the claim that a non-zero build status
aborts before any spawn. -/
theorem c6_counterexample :
    buildFailEnv.exitCode dotnetBuildCmd ≠ 0
    ∧ (build_and_run buildFailEnv { config := ConfigFile.missing, cwd := [] }).err = none
    ∧ (build_and_run buildFailEnv
        { config := ConfigFile.missing, cwd := [] }).trace.countP Event.isPopen = 2 :=
  ⟨by decide, rfl, rfl⟩

/-- C6 amended: the build's exit status is never inspected: whatever it is,
the launcher proceeds to the backend spawn, the 5-unit delay and the
front-end spawn; only failure to invoke the build command at all (the
spawn itself raising) aborts the launcher before any spawn. -/
theorem c6_amended_build_exit_unchecked (env : Env) (st : St)
    (h2 : env.spawnFails apiRunCmd = false)
    (h3 : env.chdirFails clientDir = false)
    (h4 : env.spawnFails npmStartCmd = false) :
    (env.spawnFails dotnetBuildCmd = false →
      (build_and_run env st).err = none
      ∧ (build_and_run env st).trace.filter
          (fun e => Event.isRunOf dotnetBuildCmd e || Event.isPopen e
                    || Event.isSleepOf 5 e)
          = [Event.run dotnetBuildCmd (env.exitCode dotnetBuildCmd),
             Event.popen apiRunCmd, Event.sleep 5, Event.popen npmStartCmd])
    ∧ (env.spawnFails dotnetBuildCmd = true →
      (build_and_run env st).err = some (Err.spawnError dotnetBuildCmd)
      ∧ (build_and_run env st).trace.countP Event.isPopen = 0) := by
  constructor
  · intro h1
    rw [build_and_run_happy env st h1 h2 h3 h4]
    refine ⟨rfl, ?_⟩
    simp [Event.isRunOf, Event.isPopen, Event.isSleepOf, dockerRunCmd, npmInstallCmd,
          dotnetBuildCmd, apiRunCmd, npmStartCmd, List.filter_replicate]
  · intro h1
    simp [build_and_run, h1, Event.isPopen]

theorem c6_witness :
    (build_and_run buildFailEnv { config := ConfigFile.invalid, cwd := [] }).err = none
    ∧ (build_and_run buildFailEnv { config := ConfigFile.invalid, cwd := [] }).trace.filter
        (fun e => Event.isRunOf dotnetBuildCmd e || Event.isPopen e
                  || Event.isSleepOf 5 e)
        = [Event.run dotnetBuildCmd (buildFailEnv.exitCode dotnetBuildCmd),
           Event.popen apiRunCmd, Event.sleep 5, Event.popen npmStartCmd] :=
  (c6_amended_build_exit_unchecked buildFailEnv
    { config := ConfigFile.invalid, cwd := [] } rfl rfl rfl).1 rfl

/-- Environment in which the docker command exits with status 125 (as on a
container-name collision) and every other call succeeds. -/
def collisionEnv : Env :=
  { spawnFails := fun _ => false,
    exitCode := fun c => if c = dockerRunCmd then 125 else 0,
    chdirFails := fun _ => false, interruptAfter := 0 }

/-- C7 counterexample: a name collision only makes the docker command exit
non-zero; the script never checks the status, finishes the bootstrap
without error, and still performs the configuration-file patch,
contradicting the claim that a collision is fatal and skips the patch. -/
theorem c7_counterexample :
    collisionEnv.exitCode dockerRunCmd ≠ 0
    ∧ (setup_influxdb collisionEnv
        { config := ConfigFile.valid (Json.obj []), cwd := [] }).err = none
    ∧ (setup_influxdb collisionEnv
        { config := ConfigFile.valid (Json.obj []), cwd := [] }).trace.countP
          Event.isWrite = 1 :=
  ⟨by decide, rfl, rfl⟩

/-- C7 amended: only unavailability of the container runtime, where the
docker invocation itself raises, is fatal and prevents the patch; a name
collision surfaces merely as an unchecked non-zero exit status and the
patch is still performed. -/
theorem c7_amended_spawn_failure_fatal (env : Env) (D : List (String × Json))
    (cwd0 : List String) :
    (env.spawnFails dockerRunCmd = true →
      (setup_influxdb env { config := ConfigFile.valid (Json.obj D), cwd := cwd0 }).err
        = some (Err.spawnError dockerRunCmd)
      ∧ (setup_influxdb env
          { config := ConfigFile.valid (Json.obj D), cwd := cwd0 }).trace.countP
            Event.isWrite = 0)
    ∧ (env.spawnFails dockerRunCmd = false →
      (setup_influxdb env { config := ConfigFile.valid (Json.obj D), cwd := cwd0 }).err
        = none
      ∧ (setup_influxdb env
          { config := ConfigFile.valid (Json.obj D), cwd := cwd0 }).trace.countP
            Event.isWrite = 1) := by
  constructor
  · intro h
    simp [setup_influxdb, h]
  · intro h
    simp [setup_influxdb, h, updateAppSettings, Event.isWrite]

theorem c7_witness :
    (setup_influxdb collisionEnv
      { config := ConfigFile.valid (Json.obj [("Foo", Json.num 1)]), cwd := [] }).err
      = none
    ∧ (setup_influxdb collisionEnv
        { config := ConfigFile.valid (Json.obj [("Foo", Json.num 1)]), cwd := [] }).trace.countP
          Event.isWrite = 1 :=
  (c7_amended_spawn_failure_fatal collisionEnv [("Foo", Json.num 1)] []).2 rfl

/-- C8 counterexample: running the launcher with the repository root as
working directory leaves the working directory inside the front-end
project after it returns; it is not restored after the front-end spawn. -/
theorem c8_counterexample :
    (build_and_run happyEnv { config := ConfigFile.invalid, cwd := [] }).state.cwd
      = [clientDir]
    ∧ [clientDir] ≠ ([] : List String) :=
  ⟨rfl, by simp⟩

/-- C8 amended: in the STARTING_FRONTEND step the launcher changes the
working directory into the front-end project and spawns the dev server,
but never restores it: after the launcher returns, the working directory
is the front-end project directory, pushed below its previous value. -/
theorem c8_amended_cwd_left_in_client (env : Env) (st : St)
    (h1 : env.spawnFails dotnetBuildCmd = false)
    (h2 : env.spawnFails apiRunCmd = false)
    (h3 : env.chdirFails clientDir = false)
    (h4 : env.spawnFails npmStartCmd = false) :
    (build_and_run env st).state.cwd = st.cwd ++ [clientDir] := by
  rw [build_and_run_happy env st h1 h2 h3 h4]

theorem c8_witness :
    (build_and_run happyEnv { config := ConfigFile.missing, cwd := ["repo"] }).state.cwd
      = ["repo"] ++ [clientDir] :=
  c8_amended_cwd_left_in_client happyEnv { config := ConfigFile.missing, cwd := ["repo"] }
    rfl rfl rfl rfl

/-- Environment in which `npm install` exits with status 1 and every other
call succeeds. -/
def npmFailEnv : Env :=
  { spawnFails := fun _ => false,
    exitCode := fun c => if c = npmInstallCmd then 1 else 0,
    chdirFails := fun _ => false, interruptAfter := 0 }

/-- C9: a non-zero exit status of the install command is never inspected:
the dependency installer returns without error, the full script completes
normally, the failing install call appears in the trace with its non-zero
status, and the launcher stage still runs (the build call is issued). -/
theorem c9_install_failure_nonfatal (env : Env) (D : List (String × Json))
    (cwd0 : List String)
    (hx : env.exitCode npmInstallCmd ≠ 0)
    (hd : env.spawnFails dockerRunCmd = false)
    (hn : env.spawnFails npmInstallCmd = false)
    (hc : env.chdirFails clientDir = false)
    (h1 : env.spawnFails dotnetBuildCmd = false)
    (h2 : env.spawnFails apiRunCmd = false)
    (h4 : env.spawnFails npmStartCmd = false) :
    (ensure_npm_packages env { config := ConfigFile.valid (Json.obj D), cwd := cwd0 }).err
      = none
    ∧ (mainScript env { config := ConfigFile.valid (Json.obj D), cwd := cwd0 }).err = none
    ∧ (∃ c, c ≠ 0 ∧ Event.run npmInstallCmd c
        ∈ (mainScript env { config := ConfigFile.valid (Json.obj D), cwd := cwd0 }).trace)
    ∧ (mainScript env
        { config := ConfigFile.valid (Json.obj D), cwd := cwd0 }).trace.countP
          (Event.isRunOf dotnetBuildCmd) = 1 := by
  refine ⟨by simp [ensure_npm_packages, hc, hn], ?_, ?_, ?_⟩ <;>
    rw [mainScript_happy env D cwd0 hd hn hc h1 h2 h4]
  · exact ⟨env.exitCode npmInstallCmd, hx, by simp⟩
  · simp [Event.isRunOf, dockerRunCmd, npmInstallCmd, dotnetBuildCmd,
          List.countP_replicate]

theorem c9_witness :
    (ensure_npm_packages npmFailEnv
      { config := ConfigFile.valid (Json.obj []), cwd := [] }).err = none
    ∧ (mainScript npmFailEnv { config := ConfigFile.valid (Json.obj []), cwd := [] }).err
      = none
    ∧ (∃ c, c ≠ 0 ∧ Event.run npmInstallCmd c
        ∈ (mainScript npmFailEnv
            { config := ConfigFile.valid (Json.obj []), cwd := [] }).trace)
    ∧ (mainScript npmFailEnv
        { config := ConfigFile.valid (Json.obj []), cwd := [] }).trace.countP
          (Event.isRunOf dotnetBuildCmd) = 1 :=
  c9_install_failure_nonfatal npmFailEnv [] [] (by decide) rfl rfl rfl rfl rfl rfl

/-- Environment in which the install command itself cannot be invoked (the
package-manager executable is missing) and every other call succeeds. -/
def npmMissingEnv : Env :=
  { spawnFails := fun c => c = npmInstallCmd,
    exitCode := fun _ => 0,
    chdirFails := fun _ => false, interruptAfter := 0 }

/-- C10: when invoking the install command itself raises, the restoring
chdir is skipped: the installer aborts with the spawn error, its trace
holds only the entering chdir, and the working directory is left inside
the front-end project folder. -/
theorem c10_spawn_failure_skips_restore (env : Env) (st : St)
    (hc : env.chdirFails clientDir = false)
    (hs : env.spawnFails npmInstallCmd = true) :
    ensure_npm_packages env st =
      { trace := [Event.chdir clientDir],
        state := { st with cwd := st.cwd ++ [clientDir] },
        err := some (Err.spawnError npmInstallCmd) } := by
  simp [ensure_npm_packages, hc, hs]

theorem c10_witness :
    ensure_npm_packages npmMissingEnv { config := ConfigFile.invalid, cwd := [] } =
      { trace := [Event.chdir clientDir],
        state := { config := ConfigFile.invalid, cwd := [] ++ [clientDir] },
        err := some (Err.spawnError npmInstallCmd) } :=
  c10_spawn_failure_skips_restore npmMissingEnv { config := ConfigFile.invalid, cwd := [] }
    rfl (by simp [npmMissingEnv])

end PredictiveMaintenance
